import Mathlib

/-!
Shallow embedding of the SCTP networking layer
(`src/net/sctpsock_unix.go`, `src/net/sctpsockopt_unix.go`,
`src/net/sctpsockopt_posix.go`) of the Go fork.

Modelling conventions:
* a Go byte slice (`net.IP`) is `Option (List Nat)`: `none` is the nil
  slice, `some l` a (possibly empty) non-nil slice;
* a Go pointer receiver (`*SCTPAddr`, `*SCTPConn`, `*SCTPListener`) is an
  `Option` of the structure, `none` being the nil pointer;
* the external socket primitive provider (`internetSocket` / `dialSCTP` /
  `listenSCTP` internals), the name resolver and the per-handle system
  calls are abstracted as function parameters (oracles); a theorem that
  holds for every oracle shows the provider is never consulted;
* Go `error` values are the inductive `GoError`; a nil error is `none` in
  `Option GoError`.
-/

/-- Go `net.IP`: a byte slice, `none` = nil slice, `some l` = slice `l`. -/
abbrev GoIP := Option (List Nat)

/-- Length of a Go byte slice (`len`), 0 for the nil slice. -/
def goLen (ip : GoIP) : Nat :=
  match ip with
  | none => 0
  | some l => l.length

def IPv4len : Nat := 4
def IPv6len : Nat := 16

/-- The 12-byte v4-in-v6 marker `0,...,0,0xff,0xff` from `net/ip.go`. -/
def v4InV6Marker : List Nat := [0, 0, 0, 0, 0, 0, 0, 0, 0, 0, 255, 255]

/-- Modelled from the spec: `net.IPv4` (stdlib `net/ip.go`, not under
`src/`) builds the 16-byte IPv4-in-IPv6 representation of an IPv4
address. -/
def goIPv4 (a b c d : Nat) : List Nat := v4InV6Marker ++ [a, b, c, d]

/-- `net.IPv4zero` = `IPv4(0,0,0,0)`. -/
def IPv4zero : List Nat := goIPv4 0 0 0 0

/-- `net.IPv6unspecified`: 16 zero bytes. -/
def IPv6unspecified : List Nat := List.replicate 16 0

/-- Modelled from the spec: `IP.To4` (stdlib `net/ip.go`, not under
`src/`): the 4-byte form if the IP is IPv4 or an IPv4-mapped IPv6
address, nil otherwise. -/
def goTo4 (ip : GoIP) : GoIP :=
  match ip with
  | none => none
  | some l =>
    if l.length = 4 then some l
    else if l.length = 16 && l.take 12 == v4InV6Marker then some (l.drop 12)
    else none

/-- Modelled from the spec: `IP.Equal` (stdlib `net/ip.go`, not under
`src/`): byte equality, treating an IPv4 address and its IPv4-mapped
IPv6 form as equal. -/
def goIPEqual (ip x : List Nat) : Bool :=
  if ip.length = x.length then ip == x
  else if ip.length = 4 && x.length = 16 then
    x.take 12 == v4InV6Marker && ip == x.drop 12
  else if ip.length = 16 && x.length = 4 then
    ip.take 12 == v4InV6Marker && x == ip.drop 12
  else false

/-- Modelled from the spec: `IP.IsUnspecified` (stdlib `net/ip.go`, not
under `src/`): equal to `0.0.0.0` or `::`. -/
def goIsUnspecified (l : List Nat) : Bool :=
  goIPEqual l IPv4zero || goIPEqual l IPv6unspecified

/-- `SCTPAddr` from `sctpsockopt_unix.go`. -/
structure SCTPAddr where
  IP : GoIP
  Port : Int
  Zone : String
deriving DecidableEq, Repr

/-- Linux `AF_INET`. -/
def AF_INET : Nat := 2
/-- Linux `AF_INET6`. -/
def AF_INET6 : Nat := 10

/-- `(a *SCTPAddr) family()` from `sctpsock_unix.go`:
nil receiver or `len(a.IP) <= IPv4len` gives `AF_INET`; otherwise an
IPv4-mapped address (`a.IP.To4() != nil`) gives `AF_INET`; otherwise
`AF_INET6`. -/
def SCTPAddr.family (a : Option SCTPAddr) : Nat :=
  match a with
  | none => AF_INET
  | some a =>
    if goLen a.IP ≤ IPv4len then AF_INET
    else if goTo4 a.IP ≠ none then AF_INET
    else AF_INET6

/-- `(a *SCTPAddr) isWildcard()` from `sctpsockopt_unix.go`:
true when the receiver is nil or `a.IP == nil` (the nil slice), else
`a.IP.IsUnspecified()`. -/
def SCTPAddr.isWildcard (a : Option SCTPAddr) : Bool :=
  match a with
  | none => true
  | some a =>
    match a.IP with
    | none => true
    | some l => goIsUnspecified l

/-- `(a *SCTPAddr) opAddr()` from `sctpsockopt_unix.go`: the receiver as
a `net.Addr`, with the nil pointer becoming the nil interface. -/
def SCTPAddr.opAddr (a : Option SCTPAddr) : Option SCTPAddr :=
  match a with
  | none => none
  | some a => some a

/-- Go `error` values that occur in the SCTP layer. `errno e` is a raw
`syscall.Errno`; `opError` is `net.OpError` with operation, network,
source and destination address; `syscallError` is `os.SyscallError`. -/
inductive GoError where
  | errno (e : Nat)
  | eof
  | missingAddress
  | unknownNetwork (network : String)
  | syscallError (op : String) (err : GoError)
  | opError (op : String) (network : String) (source : Option SCTPAddr)
      (addr : Option SCTPAddr) (err : GoError)
  | other (msg : String)
deriving DecidableEq, Repr

/-- `syscall.EINVAL` (invalid-state error of the liveness checks). -/
def EINVAL : GoError := .errno 22

/-- `internal/poll.ErrClosing` as surfaced by `incref` on a closed
descriptor (Go 1.9 era: "use of closed network connection"). -/
def errClosing : GoError := .other "use of closed network connection"

/-- `boolint` from the `net` package: 1 for true, 0 for false. -/
def boolint (b : Bool) : Nat := if b then 1 else 0

/-- `os.wrapSyscallError`: wraps the error in an `os.SyscallError` with
the operation name only when it is a raw `syscall.Errno`. -/
def wrapSyscallError (nm : String) (err : Option GoError) : Option GoError :=
  match err with
  | some (.errno e) => some (.syscallError nm (.errno e))
  | e => e

/-- `os.NewSyscallError`: nil stays nil, anything else is wrapped with
the operation name. -/
def newSyscallError (nm : String) (err : Option GoError) : Option GoError :=
  match err with
  | none => none
  | some e => some (.syscallError nm e)

def IPPROTO_SCTP : Nat := 132
def SCTP_NODELAY : Nat := 3

/-- `netFD` data visible to the SCTP layer: network name and the local
and remote addresses (each possibly nil). -/
structure NetFD where
  net : String
  laddr : Option SCTPAddr
  raddr : Option SCTPAddr
deriving DecidableEq, Repr

/-- `SCTPConn` wraps `conn{fd *netFD}`; the `fd` pointer may be nil. -/
structure SCTPConn where
  fd : Option NetFD
deriving DecidableEq, Repr

/-- `(c *conn) ok()` as used through `SCTPConn`: the receiver pointer and
its `fd` are both non-nil. -/
def SCTPConn.ok (c : Option SCTPConn) : Bool :=
  match c with
  | some ⟨some _⟩ => true
  | _ => false

/-- `(c *SCTPConn) ReadFrom(r)` from `sctpsockopt_unix.go`. The result
of `c.readFrom(r)` (sendFile fast path or `genericReadFrom`, both outside
this layer) is the oracle `rf` applied to the handle. A non-nil error
other than `io.EOF` is decorated as an `OpError`. -/
def SCTPConn.ReadFrom (c : Option SCTPConn) (rf : NetFD → Int × Option GoError) :
    Int × Option GoError :=
  match c with
  | some ⟨some fd⟩ =>
    let (n, err) := rf fd
    match err with
    | some e =>
      if e = .eof then (n, some e)
      else (n, some (.opError "read" fd.net fd.laddr fd.raddr e))
    | none => (n, none)
  | _ => (0, some EINVAL)

/-- `(c *SCTPConn) CloseRead()`; `c.fd.closeRead()` is the oracle. -/
def SCTPConn.CloseRead (c : Option SCTPConn) (impl : NetFD → Option GoError) :
    Option GoError :=
  match c with
  | some ⟨some fd⟩ =>
    match impl fd with
    | some e => some (.opError "close" fd.net fd.laddr fd.raddr e)
    | none => none
  | _ => some EINVAL

/-- `(c *SCTPConn) CloseWrite()`; `c.fd.closeWrite()` is the oracle. -/
def SCTPConn.CloseWrite (c : Option SCTPConn) (impl : NetFD → Option GoError) :
    Option GoError :=
  match c with
  | some ⟨some fd⟩ =>
    match impl fd with
    | some e => some (.opError "close" fd.net fd.laddr fd.raddr e)
    | none => none
  | _ => some EINVAL

/-- `(c *SCTPConn) SetLinger(sec)`; `setLinger(c.fd, sec)` is the
oracle. -/
def SCTPConn.SetLinger (c : Option SCTPConn) (impl : NetFD → Int → Option GoError)
    (sec : Int) : Option GoError :=
  match c with
  | some ⟨some fd⟩ =>
    match impl fd sec with
    | some e => some (.opError "set" fd.net fd.laddr fd.raddr e)
    | none => none
  | _ => some EINVAL

/-- `(c *SCTPConn) SetKeepAlive(keepalive)`; `setKeepAlive(c.fd, ka)` is
the oracle. -/
def SCTPConn.SetKeepAlive (c : Option SCTPConn) (impl : NetFD → Bool → Option GoError)
    (keepalive : Bool) : Option GoError :=
  match c with
  | some ⟨some fd⟩ =>
    match impl fd keepalive with
    | some e => some (.opError "set" fd.net fd.laddr fd.raddr e)
    | none => none
  | _ => some EINVAL

/-- `(c *SCTPConn) SetKeepAlivePeriod(d)`; the duration is an integer
count of nanoseconds and `setKeepAlivePeriod(c.fd, d)` is the oracle. -/
def SCTPConn.SetKeepAlivePeriod (c : Option SCTPConn)
    (impl : NetFD → Int → Option GoError) (d : Int) : Option GoError :=
  match c with
  | some ⟨some fd⟩ =>
    match impl fd d with
    | some e => some (.opError "set" fd.net fd.laddr fd.raddr e)
    | none => none
  | _ => some EINVAL

/-- `(c *SCTPConn) SetNoDelay(noDelay)`; `setSCTPNoDelay(c.fd, noDelay)`
is the oracle. -/
def SCTPConn.SetNoDelay (c : Option SCTPConn) (impl : NetFD → Bool → Option GoError)
    (noDelay : Bool) : Option GoError :=
  match c with
  | some ⟨some fd⟩ =>
    match impl fd noDelay with
    | some e => some (.opError "set" fd.net fd.laddr fd.raddr e)
    | none => none
  | _ => some EINVAL

/-- Modelled from the spec: `(c *conn) Close()` (generic `conn` method of
the `net` package, not under `src/`): operations on a connection whose
liveness flag is false fail fast with the invalid-state error; otherwise
the handle is released and a failure is decorated as an `OpError`. -/
def SCTPConn.Close (c : Option SCTPConn) (impl : NetFD → Option GoError) :
    Option GoError :=
  match c with
  | some ⟨some fd⟩ =>
    match impl fd with
    | some e => some (.opError "close" fd.net fd.laddr fd.raddr e)
    | none => none
  | _ => some EINVAL

/-- A recorded `SetsockoptInt` call: level, option name, value. -/
structure SockOptCall where
  level : Nat
  optname : Nat
  value : Nat
deriving DecidableEq, Repr

/-- The provider primitive `fd.pfd.SetsockoptInt` in trace-recording
form: it emits the one call it makes and answers with the oracle's errno
for that call (`none` = success). -/
def setsockoptIntTr (so : SockOptCall → Option Nat) (level optname value : Nat) :
    Option GoError × List SockOptCall :=
  ((so ⟨level, optname, value⟩).map GoError.errno, [⟨level, optname, value⟩])

/-- `setSCTPNoDelay` from `sctpsockopt_unix.go` in trace-recording form:
one `SetsockoptInt(IPPROTO_SCTP, SCTP_NODELAY, boolint(noDelay))` call,
its error wrapped by `wrapSyscallError("setsockopt", err)`. -/
def setSCTPNoDelayTr (so : SockOptCall → Option Nat) (noDelay : Bool) :
    Option GoError × List SockOptCall :=
  let (err, tr) := setsockoptIntTr so IPPROTO_SCTP SCTP_NODELAY (boolint noDelay)
  (wrapSyscallError "setsockopt" err, tr)

/-- `newSCTPConn(fd)` from `sctpsockopt_unix.go`: wraps the handle and
applies `setSCTPNoDelay(c.fd, true)`, discarding its error. The result
pairs the constructed connection with the trace of socket-option calls
made during construction. -/
def newSCTPConn (fd : NetFD) (so : SockOptCall → Option Nat) :
    SCTPConn × List SockOptCall :=
  let c : SCTPConn := ⟨some fd⟩
  let (_, tr) := setSCTPNoDelayTr so true
  (c, tr)

/-- `DialSCTP(net, laddr, raddr)` from `sctpsockopt_unix.go`. The
`provider` oracle stands for `dialSCTP(ctx, net, laddr, raddr)`
(`internetSocket` plus `newSCTPConn`). -/
def DialSCTP (net : String) (laddr raddr : Option SCTPAddr)
    (provider : String → Option SCTPAddr → Option SCTPAddr → Except GoError SCTPConn) :
    Except GoError SCTPConn :=
  if net = "sctp" ∨ net = "sctp4" ∨ net = "sctp6" then
    match raddr with
    | none =>
      .error (.opError "dial" net (SCTPAddr.opAddr laddr) none .missingAddress)
    | some _ =>
      match provider net laddr raddr with
      | .error e =>
        .error (.opError "dial" net (SCTPAddr.opAddr laddr) (SCTPAddr.opAddr raddr) e)
      | .ok c => .ok c
  else
    .error (.opError "dial" net (SCTPAddr.opAddr laddr) (SCTPAddr.opAddr raddr)
      (.unknownNetwork net))

/-- `ResolveSCTPAddr(network, address)` from `sctpsockopt_unix.go`. The
`res` oracle stands for `DefaultResolver.internetAddrList` followed by
`forResolve` (name resolution, outside this layer). -/
def ResolveSCTPAddr (network address : String)
    (res : String → String → Except GoError (Option SCTPAddr)) :
    Except GoError (Option SCTPAddr) :=
  if network = "sctp" ∨ network = "sctp4" ∨ network = "sctp6" then
    res network address
  else if network = "" then res "sctp" address
  else .error (.unknownNetwork network)

/-- `SCTPListener` from `sctpsockopt_unix.go`: `fd *netFD`, possibly
nil. -/
structure SCTPListener where
  fd : Option NetFD
deriving DecidableEq, Repr

/-- `(ln *SCTPListener) ok()` from `sctpsock_unix.go`:
`ln != nil && ln.fd != nil`. -/
def SCTPListener.ok (l : Option SCTPListener) : Bool :=
  match l with
  | some ⟨some _⟩ => true
  | _ => false

/-- `(l *SCTPListener) AcceptSCTP()` from `sctpsockopt_unix.go`; the
`acc` oracle stands for `l.accept()` (`ln.fd.accept()` followed by
`newSCTPConn`). -/
def SCTPListener.AcceptSCTP (l : Option SCTPListener)
    (acc : NetFD → Except GoError SCTPConn) : Except GoError SCTPConn :=
  match l with
  | some ⟨some fd⟩ =>
    match acc fd with
    | .error e => .error (.opError "accept" fd.net none fd.laddr e)
    | .ok c => .ok c
  | _ => .error EINVAL

/-- `(l *SCTPListener) Accept()` from `sctpsockopt_unix.go`: same body
as `AcceptSCTP`, returning the connection as a generic `Conn`. -/
def SCTPListener.Accept (l : Option SCTPListener)
    (acc : NetFD → Except GoError SCTPConn) : Except GoError SCTPConn :=
  match l with
  | some ⟨some fd⟩ =>
    match acc fd with
    | .error e => .error (.opError "accept" fd.net none fd.laddr e)
    | .ok c => .ok c
  | _ => .error EINVAL

/-- `(l *SCTPListener) Close()` from `sctpsockopt_unix.go`; the `impl`
oracle stands for `l.close()` (`ln.fd.Close()`). -/
def SCTPListener.Close (l : Option SCTPListener) (impl : NetFD → Option GoError) :
    Option GoError :=
  match l with
  | some ⟨some fd⟩ =>
    match impl fd with
    | some e => some (.opError "close" fd.net none fd.laddr e)
    | none => none
  | _ => some EINVAL

/-- Outcome of `(l *SCTPListener) Addr()`: either the address read from
the handle, or a nil-pointer dereference (a runtime panic). -/
inductive LAddrOutcome where
  | nilPanic
  | addr (a : Option SCTPAddr)
deriving DecidableEq, Repr

/-- `(l *SCTPListener) Addr()` from `sctpsockopt_unix.go`: the body is
`return l.fd.laddr` with no liveness check, so a nil listener or nil
handle dereferences a nil pointer. -/
def SCTPListener.Addr (l : Option SCTPListener) : LAddrOutcome :=
  match l with
  | some ⟨some fd⟩ => .addr fd.laddr
  | _ => .nilPanic

/-- `(l *SCTPListener) SetDeadline(t)` from `sctpsockopt_unix.go`; the
time is an integer instant and `l.fd.pfd.SetDeadline(t)` is the
oracle. -/
def SCTPListener.SetDeadline (l : Option SCTPListener)
    (impl : NetFD → Int → Option GoError) (t : Int) : Option GoError :=
  match l with
  | some ⟨some fd⟩ =>
    match impl fd t with
    | some e => some (.opError "set" fd.net none fd.laddr e)
    | none => none
  | _ => some EINVAL

/-- `(l *SCTPListener) File()` from `sctpsockopt_unix.go`; the duplicated
`os.File` is a numeric token and `l.file()` (`ln.fd.dup()`) is the
oracle. -/
def SCTPListener.File (l : Option SCTPListener)
    (impl : NetFD → Except GoError Nat) : Except GoError Nat :=
  match l with
  | some ⟨some fd⟩ =>
    match impl fd with
    | .error e => .error (.opError "file" fd.net none fd.laddr e)
    | .ok f => .ok f
  | _ => .error EINVAL

/-- The empty `&SCTPAddr{}` literal: nil IP, port 0, empty zone. -/
def emptySCTPAddr : SCTPAddr := ⟨none, 0, ""⟩

/-- `ListenSCTP(net, laddr)` from `sctpsockopt_unix.go`. The `provider`
oracle stands for `listenSCTP(ctx, net, laddr)` (`internetSocket` with
role "listen"). A nil `laddr` is replaced by `&SCTPAddr{}` after the
network-token check. -/
def ListenSCTP (net : String) (laddr : Option SCTPAddr)
    (provider : String → Option SCTPAddr → Except GoError SCTPListener) :
    Except GoError SCTPListener :=
  if net = "sctp" ∨ net = "sctp4" ∨ net = "sctp6" then
    let laddr2 : Option SCTPAddr :=
      match laddr with
      | none => some emptySCTPAddr
      | some a => some a
    match provider net laddr2 with
    | .error e =>
      .error (.opError "listen" net none (SCTPAddr.opAddr laddr2) e)
    | .ok ln => .ok ln
  else
    .error (.opError "listen" net none (SCTPAddr.opAddr laddr) (.unknownNetwork net))

/-- Handle state the platform option-setter variants act on: whether the
descriptor is already closing, and its setsockopt capability returning
an errno (`none` = success). -/
structure OptHandle where
  closing : Bool
  so : Nat → Nat → Nat → Option Nat

/-- Modelled from the spec: `fd.pfd.SetsockoptInt` of the abstracted
socket primitive provider (`internal/poll`, not under `src/`): a closing
descriptor yields the closed-connection guard error, otherwise the
setsockopt capability is invoked and its errno returned raw. -/
def pfdSetsockoptInt (h : OptHandle) (level optname value : Nat) : Option GoError :=
  if h.closing then some errClosing
  else (h.so level optname value).map GoError.errno

/-- Modelled from the spec: `fd.incref()` of the provider (not under
`src/`): fails with the closed-connection guard error on a closing
descriptor. -/
def increfErr (h : OptHandle) : Option GoError :=
  if h.closing then some errClosing else none

/-- `setSCTPNoDelay` variant from `sctpsockopt_posix.go` (first copy):
`wrapSyscallError("setsockopt", fd.pfd.SetsockoptInt(IPPROTO_SCTP,
SCTP_NODELAY, boolint(noDelay)))` (the `runtime.KeepAlive(fd)` call has
no observable effect in the model). -/
def setSCTPNoDelayPosixA (h : OptHandle) (noDelay : Bool) : Option GoError :=
  wrapSyscallError "setsockopt"
    (pfdSetsockoptInt h IPPROTO_SCTP SCTP_NODELAY (boolint noDelay))

/-- `setSCTPNoDelay` variant from `sctpsockopt_posix.go` (second copy):
explicit `fd.incref()` guard, then `os.NewSyscallError("setsockopt",
syscall.SetsockoptInt(fd.sysfd, IPPROTO_SCTP, SCTP_NODELAY,
boolint(noDelay)))`. -/
def setSCTPNoDelayPosixB (h : OptHandle) (noDelay : Bool) : Option GoError :=
  match increfErr h with
  | some e => some e
  | none =>
    newSyscallError "setsockopt"
      ((h.so IPPROTO_SCTP SCTP_NODELAY (boolint noDelay)).map GoError.errno)

/-- `setSCTPNoDelay` from `sctpsockopt_unix.go`: textually the same body
as the first posix copy (it spells the option constant
`syscall.SCTP_NODELAY` rather than the package-level `SCTP_NODELAY`;
both denote the same option number). -/
def setSCTPNoDelayUnix (h : OptHandle) (noDelay : Bool) : Option GoError :=
  wrapSyscallError "setsockopt"
    (pfdSetsockoptInt h IPPROTO_SCTP SCTP_NODELAY (boolint noDelay))

/-- Innermost cause of a (possibly `OpError`-decorated) error. -/
def opErrCause : GoError → GoError
  | .opError _ _ _ _ e => e
  | e => e

/-- Cause of a failed dial, `none` when the dial succeeded. -/
def dialFailureCause (r : Except GoError SCTPConn) : Option GoError :=
  match r with
  | .error e => some (opErrCause e)
  | .ok _ => none

/-- A concrete dial provider that always succeeds. -/
def provW : String → Option SCTPAddr → Option SCTPAddr → Except GoError SCTPConn :=
  fun _ _ _ => .ok ⟨none⟩

/-- A concrete resolver that always resolves to the nil address. -/
def resW : String → String → Except GoError (Option SCTPAddr) :=
  fun _ _ => .ok none

/-- A concrete listen provider that always succeeds. -/
def lnProvW : String → Option SCTPAddr → Except GoError SCTPListener :=
  fun _ _ => .ok ⟨none⟩

/-- A concrete handle. -/
def fdW : NetFD := ⟨"sctp", none, none⟩

/-- C1 (counterexample): the claim quantifies over any network token, but
`DialSCTP` checks the token before the nil-remote-address check: at
network `"tcp"` with nil remote address the call fails with
`UnknownNetworkError`, not `errMissingAddress`. -/
theorem C1_counterexample :
    dialFailureCause (DialSCTP "tcp" none none provW) =
      some (.unknownNetwork "tcp") ∧
    dialFailureCause (DialSCTP "tcp" none none provW) ≠ some .missingAddress := by
  constructor
  · rfl
  · decide

/-- C1 (amended): for every call to `DialSCTP` with a valid network token
(`"sctp"`, `"sctp4"` or `"sctp6"`) and nil remote address, the call fails
with the `errMissingAddress` error (decorated as a dial `OpError`), for
every provider — so the socket primitive provider is never invoked. -/
theorem C1_dial_nil_raddr_missing (net : String) (laddr : Option SCTPAddr)
    (provider : String → Option SCTPAddr → Option SCTPAddr → Except GoError SCTPConn)
    (h : net = "sctp" ∨ net = "sctp4" ∨ net = "sctp6") :
    DialSCTP net laddr none provider =
      .error (.opError "dial" net (SCTPAddr.opAddr laddr) none .missingAddress) := by
  rcases h with h | h | h <;> subst h <;> rfl

/-- C1 (witness): `DialSCTP "sctp" nil nil` fails with `errMissingAddress`. -/
theorem C1_witness :
    DialSCTP "sctp" none none provW =
      .error (.opError "dial" "sctp" none none .missingAddress) :=
  C1_dial_nil_raddr_missing "sctp" none provW (Or.inl rfl)

/-- C2: `family()` returns `AF_INET` exactly when the address is nil, its
IP has length at most 4 bytes, or its IP is IPv4-mapped (`To4` non-nil);
otherwise it returns `AF_INET6`. Concretely it is `AF_INET` for
`127.0.0.1` (both the 4-byte form and the 16-byte parsed form, which is
also the parse of `::ffff:127.0.0.1`) and `AF_INET6` for `::1`. -/
theorem C2_family_classification (a : Option SCTPAddr) :
    (SCTPAddr.family a = AF_INET ↔
      a = none ∨ ∃ x, a = some x ∧ (goLen x.IP ≤ IPv4len ∨ goTo4 x.IP ≠ none)) ∧
    (SCTPAddr.family a ≠ AF_INET → SCTPAddr.family a = AF_INET6) ∧
    SCTPAddr.family (some ⟨some [127, 0, 0, 1], 80, ""⟩) = AF_INET ∧
    SCTPAddr.family (some ⟨some (goIPv4 127 0 0 1), 80, ""⟩) = AF_INET ∧
    SCTPAddr.family (some ⟨some (List.replicate 15 0 ++ [1]), 80, ""⟩) = AF_INET6 := by
  refine ⟨?_, ?_, by decide, by decide, by decide⟩
  · cases a with
    | none => simp [SCTPAddr.family]
    | some x =>
      simp only [SCTPAddr.family]
      by_cases h1 : goLen x.IP ≤ IPv4len
      · simp [h1]
      · by_cases h2 : goTo4 x.IP = none
        · simp [h1, h2, AF_INET, AF_INET6]
        · simp [h1, h2]
  · intro hne
    cases a with
    | none => simp [SCTPAddr.family] at hne
    | some x =>
      simp only [SCTPAddr.family] at hne ⊢
      by_cases h1 : goLen x.IP ≤ IPv4len
      · simp [h1] at hne
      · by_cases h2 : goTo4 x.IP = none
        · simp [h1, h2]
        · simp [h1, h2] at hne

/-- C2 (witness): the classification applied to the nil address. -/
theorem C2_witness :
    SCTPAddr.family none = AF_INET ↔
      (none : Option SCTPAddr) = none ∨
        ∃ x, (none : Option SCTPAddr) = some x ∧
          (goLen x.IP ≤ IPv4len ∨ goTo4 x.IP ≠ none) :=
  (C2_family_classification none).1

/-- C3: when the connection's liveness flag is false (nil connection or
nil handle), every public `SCTPConn` operation — `ReadFrom`, `CloseRead`,
`CloseWrite`, `SetLinger`, `SetKeepAlive`, `SetKeepAlivePeriod`,
`SetNoDelay`, `Close` — returns `syscall.EINVAL`, for every underlying
implementation, so the underlying handle is never invoked. -/
theorem C3_conn_dead_ops (c : Option SCTPConn)
    (h : SCTPConn.ok c = false)
    (rf : NetFD → Int × Option GoError)
    (icr icw icl : NetFD → Option GoError)
    (ilin ikap : NetFD → Int → Option GoError)
    (ika ind : NetFD → Bool → Option GoError)
    (sec d : Int) (ka nd : Bool) :
    SCTPConn.ReadFrom c rf = (0, some EINVAL) ∧
    SCTPConn.CloseRead c icr = some EINVAL ∧
    SCTPConn.CloseWrite c icw = some EINVAL ∧
    SCTPConn.SetLinger c ilin sec = some EINVAL ∧
    SCTPConn.SetKeepAlive c ika ka = some EINVAL ∧
    SCTPConn.SetKeepAlivePeriod c ikap d = some EINVAL ∧
    SCTPConn.SetNoDelay c ind nd = some EINVAL ∧
    SCTPConn.Close c icl = some EINVAL := by
  cases c with
  | none => exact ⟨rfl, rfl, rfl, rfl, rfl, rfl, rfl, rfl⟩
  | some cc =>
    cases cc with
    | mk fdo =>
      cases fdo with
      | none => exact ⟨rfl, rfl, rfl, rfl, rfl, rfl, rfl, rfl⟩
      | some fd => simp [SCTPConn.ok] at h

/-- C3 (witness): the nil connection has a false liveness flag and its
`CloseRead` and `ReadFrom` return `EINVAL`. -/
theorem C3_witness :
    SCTPConn.ok none = false ∧
    SCTPConn.ReadFrom none (fun _ => (7, none)) = (0, some EINVAL) ∧
    SCTPConn.CloseRead none (fun _ => none) = some EINVAL := by
  refine ⟨rfl, ?_, ?_⟩
  · exact (C3_conn_dead_ops none rfl (fun _ => (7, none)) (fun _ => none)
      (fun _ => none) (fun _ => none) (fun _ _ => none) (fun _ _ => none)
      (fun _ _ => none) (fun _ _ => none) 0 0 true true).1
  · exact (C3_conn_dead_ops none rfl (fun _ => (7, none)) (fun _ => none)
      (fun _ => none) (fun _ => none) (fun _ _ => none) (fun _ _ => none)
      (fun _ _ => none) (fun _ _ => none) 0 0 true true).2.1

/-- C4 (counterexample): `SCTPListener.Addr` performs no liveness check:
on the nil listener (liveness flag false) it dereferences the nil
pointer (`l.fd.laddr`, a runtime panic) instead of failing fast with an
invalid-state error. -/
theorem C4_counterexample :
    SCTPListener.ok none = false ∧
    SCTPListener.Addr none = LAddrOutcome.nilPanic := ⟨rfl, rfl⟩

/-- C4 (amended): when the listener's liveness flag is false, the guarded
operations `AcceptSCTP`, `Accept`, `Close`, `SetDeadline` and `File` fail
fast with `syscall.EINVAL` for every underlying implementation — but
`Addr` is unguarded: it dereferences the handle unconditionally and hits
a nil-pointer dereference on a dead listener. -/
theorem C4_listener_dead_ops (l : Option SCTPListener)
    (h : SCTPListener.ok l = false)
    (acc1 acc2 : NetFD → Except GoError SCTPConn)
    (icl : NetFD → Option GoError)
    (idl : NetFD → Int → Option GoError) (t : Int)
    (ifl : NetFD → Except GoError Nat) :
    SCTPListener.AcceptSCTP l acc1 = .error EINVAL ∧
    SCTPListener.Accept l acc2 = .error EINVAL ∧
    SCTPListener.Close l icl = some EINVAL ∧
    SCTPListener.SetDeadline l idl t = some EINVAL ∧
    SCTPListener.File l ifl = .error EINVAL ∧
    SCTPListener.Addr l = LAddrOutcome.nilPanic := by
  cases l with
  | none => exact ⟨rfl, rfl, rfl, rfl, rfl, rfl⟩
  | some ll =>
    cases ll with
    | mk fdo =>
      cases fdo with
      | none => exact ⟨rfl, rfl, rfl, rfl, rfl, rfl⟩
      | some fd => simp [SCTPListener.ok] at h

/-- C4 (witness): on the nil listener, `AcceptSCTP` fails with `EINVAL`
and `Addr` dereferences nil. -/
theorem C4_witness :
    SCTPListener.ok none = false ∧
    SCTPListener.AcceptSCTP none (fun _ => .ok ⟨none⟩) = .error EINVAL ∧
    SCTPListener.Addr none = LAddrOutcome.nilPanic := by
  refine ⟨rfl, ?_, ?_⟩
  · exact (C4_listener_dead_ops none rfl (fun _ => .ok ⟨none⟩)
      (fun _ => .ok ⟨none⟩) (fun _ => none) (fun _ _ => none) 0
      (fun _ => .ok 3)).1
  · exact (C4_listener_dead_ops none rfl (fun _ => .ok ⟨none⟩)
      (fun _ => .ok ⟨none⟩) (fun _ => none) (fun _ _ => none) 0
      (fun _ => .ok 3)).2.2.2.2.2

/-- C5: `newSCTPConn` makes exactly one socket-option call — namespace
`IPPROTO_SCTP`, name `SCTP_NODELAY`, value `boolint(true) = 1` — before
returning, and returns the wrapped connection for every option oracle,
including oracles that fail: the option-setting error is discarded. -/
theorem C5_newSCTPConn_nodelay_once (fd : NetFD) (so : SockOptCall → Option Nat) :
    newSCTPConn fd so = (⟨some fd⟩, [⟨IPPROTO_SCTP, SCTP_NODELAY, 1⟩]) := rfl

/-- C6: `ResolveSCTPAddr` consults the resolver exactly for the networks
`"sctp"`, `"sctp4"`, `"sctp6"` and `""` (the empty network is aliased to
`"sctp"`); for any other network it fails with `UnknownNetworkError`
without consulting the resolver (the result is the same for every
resolver). -/
theorem C6_resolve_network_gate (network address : String)
    (res res2 : String → String → Except GoError (Option SCTPAddr)) :
    ((network = "sctp" ∨ network = "sctp4" ∨ network = "sctp6") →
      ResolveSCTPAddr network address res = res network address) ∧
    (network = "" → ResolveSCTPAddr network address res = res "sctp" address) ∧
    ((network ≠ "sctp" ∧ network ≠ "sctp4" ∧ network ≠ "sctp6" ∧ network ≠ "") →
      ResolveSCTPAddr network address res = .error (.unknownNetwork network) ∧
      ResolveSCTPAddr network address res =
        ResolveSCTPAddr network address res2) := by
  refine ⟨?_, ?_, ?_⟩
  · intro h
    simp [ResolveSCTPAddr, h]
  · intro h
    subst h
    simp [ResolveSCTPAddr]
  · rintro ⟨h1, h2, h3, h4⟩
    constructor <;> simp [ResolveSCTPAddr, h1, h2, h3, h4]

/-- C6 (witness): concrete gating instances for a valid token, the empty
token and an unknown token. -/
theorem C6_witness :
    ResolveSCTPAddr "sctp" "localhost:1" resW = resW "sctp" "localhost:1" ∧
    ResolveSCTPAddr "" "localhost:1" resW = resW "sctp" "localhost:1" ∧
    ResolveSCTPAddr "tcp" "localhost:1" resW = .error (.unknownNetwork "tcp") :=
  ⟨(C6_resolve_network_gate "sctp" "localhost:1" resW resW).1 (Or.inl rfl),
   (C6_resolve_network_gate "" "localhost:1" resW resW).2.1 rfl,
   ((C6_resolve_network_gate "tcp" "localhost:1" resW resW).2.2
     (by refine ⟨?_, ?_, ?_, ?_⟩ <;> decide)).1⟩

/-- C7 (counterexample): an address whose IP is the empty non-nil slice
is "empty" yet `isWildcard` returns false for it: the code tests
`a.IP == nil` (nil-slice only) and `IsUnspecified` rejects a
zero-length IP. -/
theorem C7_counterexample :
    goLen (some ([] : List Nat)) = 0 ∧
    SCTPAddr.isWildcard (some ⟨some ([] : List Nat), 0, ""⟩) = false :=
  ⟨rfl, rfl⟩

/-- C7 (amended): `isWildcard` returns true exactly when the address is
nil, its IP is the nil slice, or its IP is the unspecified address for
its family (`0.0.0.0`, its IPv4-mapped form, or `::`); an empty non-nil
IP slice is not a wildcard. -/
theorem C7_isWildcard_iff (a : Option SCTPAddr) :
    SCTPAddr.isWildcard a = true ↔
      a = none ∨ ∃ x, a = some x ∧
        (x.IP = none ∨ ∃ l, x.IP = some l ∧ goIsUnspecified l = true) := by
  cases a with
  | none => simp [SCTPAddr.isWildcard]
  | some x =>
    cases hip : x.IP with
    | none => simp [SCTPAddr.isWildcard, hip]
    | some l => simp [SCTPAddr.isWildcard, hip]

/-- C7 (witness): the wildcard classification at the 4-byte `0.0.0.0`. -/
theorem C7_witness :
    SCTPAddr.isWildcard (some ⟨some [0, 0, 0, 0], 0, ""⟩) = true :=
  (C7_isWildcard_iff (some ⟨some [0, 0, 0, 0], 0, ""⟩)).2
    (Or.inr ⟨⟨some [0, 0, 0, 0], 0, ""⟩, rfl, Or.inr ⟨[0, 0, 0, 0], rfl, by decide⟩⟩)

/-- C8: on a live connection, `ReadFrom` returns the byte count produced
by the underlying transfer unchanged; a nil error stays nil, `io.EOF` is
passed through untouched (never decorated), and any other error is
decorated as an `OpError` with operation "read", the handle's network and
its endpoint addresses. -/
theorem C8_readfrom_decoration (fd : NetFD) (rf : NetFD → Int × Option GoError) :
    SCTPConn.ok (some ⟨some fd⟩) = true ∧
    (SCTPConn.ReadFrom (some ⟨some fd⟩) rf).1 = (rf fd).1 ∧
    ((rf fd).2 = none →
      SCTPConn.ReadFrom (some ⟨some fd⟩) rf = ((rf fd).1, none)) ∧
    ((rf fd).2 = some .eof →
      SCTPConn.ReadFrom (some ⟨some fd⟩) rf = ((rf fd).1, some GoError.eof)) ∧
    (∀ e, (rf fd).2 = some e → e ≠ GoError.eof →
      SCTPConn.ReadFrom (some ⟨some fd⟩) rf =
        ((rf fd).1, some (.opError "read" fd.net fd.laddr fd.raddr e))) := by
  rcases hrf : rf fd with ⟨n, err⟩
  refine ⟨rfl, ?_, ?_, ?_, ?_⟩
  · cases err with
    | none => simp [SCTPConn.ReadFrom, hrf]
    | some e =>
      by_cases he : e = GoError.eof
      · simp [SCTPConn.ReadFrom, hrf, he]
      · simp [SCTPConn.ReadFrom, hrf, he]
  · intro h0
    obtain rfl : err = none := h0
    simp [SCTPConn.ReadFrom, hrf]
  · intro h0
    obtain rfl : err = some GoError.eof := h0
    simp [SCTPConn.ReadFrom, hrf]
  · intro e h0 hne
    obtain rfl : err = some e := h0
    simp [SCTPConn.ReadFrom, hrf, hne]

/-- C8 (witness): a live connection whose transfer ends with `io.EOF`
after 5 bytes returns `(5, io.EOF)` undecorated. -/
theorem C8_witness :
    SCTPConn.ReadFrom (some ⟨some fdW⟩) (fun _ => (5, some GoError.eof)) =
      (5, some GoError.eof) :=
  (C8_readfrom_decoration fdW (fun _ => (5, some GoError.eof))).2.2.2.1 rfl

/-- C9: the platform-specific `setSCTPNoDelay` variants are behaviorally
equivalent: each requests the socket option `(IPPROTO_SCTP, SCTP_NODELAY,
boolint(noDelay))` on the provider and surfaces the provider's errno
decorated with operation name "setsockopt" (a closing-handle guard error
is surfaced undecorated by all variants alike). -/
theorem C9_nodelay_variants_equivalent (h : OptHandle) (nd : Bool) :
    setSCTPNoDelayPosixA h nd = setSCTPNoDelayUnix h nd ∧
    setSCTPNoDelayPosixB h nd = setSCTPNoDelayUnix h nd ∧
    setSCTPNoDelayUnix h nd =
      (if h.closing then some errClosing
       else
         match h.so IPPROTO_SCTP SCTP_NODELAY (boolint nd) with
         | none => none
         | some e => some (.syscallError "setsockopt" (.errno e))) := by
  refine ⟨rfl, ?_, ?_⟩
  · unfold setSCTPNoDelayPosixB setSCTPNoDelayUnix pfdSetsockoptInt increfErr
    by_cases hc : h.closing = true
    · simp [hc, wrapSyscallError, errClosing]
    · simp only [Bool.not_eq_true] at hc
      cases hso : h.so IPPROTO_SCTP SCTP_NODELAY (boolint nd) with
      | none => simp [hc, hso, wrapSyscallError, newSyscallError]
      | some e => simp [hc, hso, wrapSyscallError, newSyscallError]
  · unfold setSCTPNoDelayUnix pfdSetsockoptInt
    by_cases hc : h.closing = true
    · simp [hc, wrapSyscallError, errClosing]
    · simp only [Bool.not_eq_true] at hc
      cases hso : h.so IPPROTO_SCTP SCTP_NODELAY (boolint nd) with
      | none => simp [hc, hso, wrapSyscallError]
      | some e => simp [hc, hso, wrapSyscallError]

/-- C10: for every valid network token, `ListenSCTP` with a nil local
address behaves exactly as if the empty wildcard address `&SCTPAddr{}`
(nil IP, port 0) had been supplied, and in particular succeeds whenever
the provider succeeds on that wildcard address. -/
theorem C10_listen_nil_laddr (net : String)
    (provider : String → Option SCTPAddr → Except GoError SCTPListener)
    (h : net = "sctp" ∨ net = "sctp4" ∨ net = "sctp6") :
    ListenSCTP net none provider = ListenSCTP net (some emptySCTPAddr) provider ∧
    (∀ ln, provider net (some emptySCTPAddr) = .ok ln →
      ListenSCTP net none provider = .ok ln) := by
  constructor
  · rcases h with h | h | h <;> subst h <;> rfl
  · intro ln hln
    rcases h with h | h | h <;> subst h <;> simp [ListenSCTP, hln]

/-- C10 (witness): `ListenSCTP "sctp"` with nil local address and an
always-succeeding provider equals both the wildcard-supplied call and the
provider's listener. -/
theorem C10_witness :
    ListenSCTP "sctp" none lnProvW = ListenSCTP "sctp" (some emptySCTPAddr) lnProvW ∧
    ListenSCTP "sctp" none lnProvW = .ok ⟨none⟩ :=
  ⟨(C10_listen_nil_laddr "sctp" lnProvW (Or.inl rfl)).1,
   (C10_listen_nil_laddr "sctp" lnProvW (Or.inl rfl)).2 ⟨none⟩ rfl⟩
